import Mathlib

/-!
Verification of the loan amortization engine of this repository.

The definitions below are a shallow embedding of the Python source:

* `PaymentFrequency`, `PaymentFrequency.value` — `src/api/enums.py`
* `calculate_amortization_amount`, `amortization_schedule` — `src/api/utils.py`
* `get_loan_summary` (with the database lookup factored out) — `src/api/crud.py`

Python floats are idealized as exact rationals (`ℚ`), and Python's
`round(x, 2)` as two-decimal round-half-to-even on rationals.  Statements
that can raise (`ZeroDivisionError` from `/` or `0 ** n` with `n < 0`) are
embedded in the `Except PyErr` monad; the generator `amortization_schedule`
is materialized as the list of all rows it yields.
-/

/-- PaymentFrequency from `src/api/enums.py`: the named payment frequencies. -/
inductive PaymentFrequency : Type
  | DAILY
  | BIWEEKLY
  | WEEKLY
  | SEMIMONTHLY
  | MONTHLY
  | QUARTERLY
  | SEMIYEARLY
  | YEARLY
  deriving DecidableEq

/-- Integer value of each `PaymentFrequency` member (periods per year),
as declared in `src/api/enums.py`. -/
def PaymentFrequency.value : PaymentFrequency → ℕ
  | .DAILY => 365
  | .BIWEEKLY => 104
  | .WEEKLY => 52
  | .SEMIMONTHLY => 24
  | .MONTHLY => 12
  | .QUARTERLY => 4
  | .SEMIYEARLY => 2
  | .YEARLY => 1

/-- Runtime errors the embedded Python code can raise. -/
inductive PyErr : Type
  | zeroDivisionError
  deriving DecidableEq

/-- Integer round-half-to-even of a rational (the rounding mode of Python's
built-in `round`). -/
def rhe (q : ℚ) : ℤ :=
  if q < ⌊q⌋ + 1 / 2 then ⌊q⌋
  else if (⌊q⌋ : ℚ) + 1 / 2 < q then ⌊q⌋ + 1
  else if ⌊q⌋ % 2 = 0 then ⌊q⌋ else ⌊q⌋ + 1

/-- Python's `round(q, 2)`: round to two decimal places, half to even. -/
def round2 (q : ℚ) : ℚ := rhe (q * 100) / 100

/-- Python `**` on numbers: `0 ** n` with negative `n` raises
`ZeroDivisionError`; otherwise the rational power. -/
def pyPow (b : ℚ) (n : ℤ) : Except PyErr ℚ :=
  if b = 0 ∧ n < 0 then .error .zeroDivisionError else .ok (b ^ n)

/-- Python `/` on numbers: division by zero raises `ZeroDivisionError`. -/
def pyDiv (a b : ℚ) : Except PyErr ℚ :=
  if b = 0 then .error .zeroDivisionError else .ok (a / b)

/-- calculate_amortization_amount from `src/api/utils.py`:
`round(principal * (adjusted_interest * x) / (x - 1), 2)` with
`adjusted_interest = interest_rate / payment_frequency.value` and
`x = (1 + adjusted_interest) ** period`. -/
def calculate_amortization_amount (principal interest_rate : ℚ) (period : ℤ)
    (payment_frequency : PaymentFrequency) : Except PyErr ℚ := do
  let adjusted_interest : ℚ := interest_rate / payment_frequency.value
  let x ← pyPow (1 + adjusted_interest) period
  let q ← pyDiv (principal * (adjusted_interest * x)) (x - 1)
  return round2 q

/-- One row yielded by `amortization_schedule`: a 5-tuple
`(period, payment, interest, principal, balance)` in the source, with the
field names the specification gives them. -/
structure ScheduleRow : Type where
  period : ℤ
  payment_amount : ℚ
  interest_component : ℚ
  principal_component : ℚ
  remaining_balance : ℚ
  deriving DecidableEq

/-- The `for number in range(1, period)` loop of `amortization_schedule`:
`k` iterations starting at period `number` with running `balance`; returns
the emitted rows together with the balance left after the loop. -/
def scheduleLoop (amortization_amount adjusted_interest : ℚ) :
    ℚ → ℤ → ℕ → List ScheduleRow × ℚ
  | balance, _, 0 => ([], balance)
  | balance, number, k + 1 =>
    let interest := round2 (balance * adjusted_interest)
    let principal_payment := amortization_amount - interest
    let rest := scheduleLoop amortization_amount adjusted_interest
      (balance - principal_payment) (number + 1) k
    (⟨number, amortization_amount, interest, principal_payment,
        balance - principal_payment⟩ :: rest.1, rest.2)

/-- amortization_schedule from `src/api/utils.py`, materialized as the list
of rows the generator yields (the loop runs for periods `1..period-1`, then
a closing row is emitted), or the error raised while producing them. -/
def amortization_schedule (principal interest_rate : ℚ) (period : ℤ)
    (payment_frequency : PaymentFrequency) : Except PyErr (List ScheduleRow) := do
  let amortization_amount ← calculate_amortization_amount principal interest_rate
    period payment_frequency
  let adjusted_interest : ℚ := interest_rate / payment_frequency.value
  let r := scheduleLoop amortization_amount adjusted_interest principal 1
    (period - 1).toNat
  let interest := round2 (r.2 * adjusted_interest)
  return r.1 ++ [⟨period, r.2 + interest, interest, r.2, 0⟩]

/-- LoanSummary response schema from `src/api/schemas.py` (the fields
`get_loan_summary` fills in). -/
structure LoanSummary : Type where
  current_principal_balance : ℚ
  aggregate_principal_paid : ℚ
  aggregate_interest_paid : ℚ
  deriving DecidableEq

/-- The accumulation loop of `get_loan_summary` in `src/api/crud.py`: a fold
over the selected rows carrying `(current_principal_balance,
aggregate_principal_paid, aggregate_interest_paid)`, all initialized to `0`. -/
def summaryFold (rows : List ScheduleRow) : ℚ × ℚ × ℚ :=
  rows.foldl
    (fun acc month_data =>
      (month_data.remaining_balance, acc.2.1 + month_data.principal_component,
        acc.2.2 + month_data.interest_component))
    (0, 0, 0)

/-- get_loan_summary from `src/api/crud.py`, with the loan record's stored
fields passed directly (the database lookup is an external collaborator):
the stored `annual_interest_rate` is a percentage and is divided by 100,
the full schedule is generated, and the first `month` rows are folded. -/
def get_loan_summary (amount annual_interest_rate : ℚ) (loan_term_months : ℤ)
    (frequency : PaymentFrequency) (month : ℕ) : Except PyErr LoanSummary := do
  let amortization_data ← amortization_schedule amount (annual_interest_rate / 100)
    loan_term_months frequency
  let acc := summaryFold (amortization_data.take month)
  return ⟨round2 acc.1, round2 acc.2.1, round2 acc.2.2⟩

/-- Whether an embedded Python computation ran to completion without raising. -/
def exOk {α : Type} : Except PyErr α → Bool
  | .ok _ => true
  | .error _ => false

/-- The rows of `amortization_schedule`, or `[]` if it raised. -/
def rowsOf (principal interest_rate : ℚ) (period : ℤ)
    (payment_frequency : PaymentFrequency) : List ScheduleRow :=
  match amortization_schedule principal interest_rate period payment_frequency with
  | .ok rows => rows
  | .error _ => []

/-- The exact (un-rounded) annuity payment the calculator rounds:
`principal * (adj * (1+adj)^period) / ((1+adj)^period - 1)`. -/
def paymentExact (principal interest_rate : ℚ) (period : ℤ)
    (payment_frequency : PaymentFrequency) : ℚ :=
  principal * (interest_rate / payment_frequency.value *
      (1 + interest_rate / payment_frequency.value) ^ period) /
    ((1 + interest_rate / payment_frequency.value) ^ period - 1)

/-- The fixed per-period payment the schedule uses (the calculator's output). -/
def fixedPayment (principal interest_rate : ℚ) (period : ℤ)
    (payment_frequency : PaymentFrequency) : ℚ :=
  round2 (paymentExact principal interest_rate period payment_frequency)

/-- Balance remaining after `k` iterations of the schedule loop: each
iteration subtracts `amortization_amount - round2(balance * adjusted_interest)`. -/
def balanceAfter (amortization_amount adjusted_interest : ℚ) : ℚ → ℕ → ℚ
  | balance, 0 => balance
  | balance, k + 1 =>
    balanceAfter amortization_amount adjusted_interest
      (balance - (amortization_amount - round2 (balance * adjusted_interest))) k

/-- Consecutive integers `n, n+1, ..., n+k-1` (the period numbers a run of
`k` loop iterations starting at period `n` emits). -/
def periodList : ℤ → ℕ → List ℤ
  | _, 0 => []
  | n, k + 1 => n :: periodList (n + 1) k

/-! ### Reduction lemmas for the `Except` monad -/

theorem okBind {α β : Type} (a : α) (f : α → Except PyErr β) :
    (Except.ok a : Except PyErr α) >>= f = f a := rfl

theorem errBind {α β : Type} (e : PyErr) (f : α → Except PyErr β) :
    (Except.error e : Except PyErr α) >>= f = Except.error e := rfl

theorem okMap {α β : Type} (a : α) (f : α → β) :
    f <$> (Except.ok a : Except PyErr α) = Except.ok (f a) := rfl

theorem errMap {α β : Type} (e : PyErr) (f : α → β) :
    f <$> (Except.error e : Except PyErr α) = Except.error e := rfl

theorem pureOk {α : Type} (a : α) : (pure a : Except PyErr α) = Except.ok a := rfl

/-! ### C1, C4, C5 : concrete evaluations of the payment calculator -/

/-- C1: the payment calculator returns the documented reference values:
for principal 150000, annual rate 0.10 and 36 periods it returns exactly
4840.08 with MONTHLY frequency and exactly 4495.63 with SEMIMONTHLY
frequency. -/
theorem payment_reference_values :
    calculate_amortization_amount 150000 (1/10) 36 .MONTHLY = .ok (4840.08 : ℚ) ∧
    calculate_amortization_amount 150000 (1/10) 36 .SEMIMONTHLY = .ok (4495.63 : ℚ) := by
  constructor <;>
    norm_num [calculate_amortization_amount, pyPow, pyDiv, round2, rhe,
      PaymentFrequency.value, okBind, errBind, okMap, errMap, pureOk]

/-- C4, counterexample: with annual rate exactly zero the payment calculator
does fail with a division error (it does not take a zero-rate limit path):
at principal 150000, rate 0, 36 periods it raises `ZeroDivisionError`. -/
theorem zero_rate_division_fault :
    calculate_amortization_amount 150000 0 36 .MONTHLY = .error .zeroDivisionError ∧
    (Except.error .zeroDivisionError : Except PyErr ℚ) ≠ .ok (round2 (150000 / 36)) := by
  refine ⟨?_, by simp⟩
  norm_num [calculate_amortization_amount, pyPow, pyDiv,
    PaymentFrequency.value, okBind, errBind, okMap, errMap, pureOk]

/-- C4, amended: when the annual interest rate is exactly zero, the payment
calculator raises `ZeroDivisionError` for every principal, every term and
every frequency, because the discount denominator `(1+0)^period - 1` is zero
and the code has no zero-rate special case. -/
theorem zero_rate_raises_division_fault (principal : ℚ) (period : ℤ)
    (payment_frequency : PaymentFrequency) :
    calculate_amortization_amount principal 0 period payment_frequency =
      .error .zeroDivisionError := by
  simp [calculate_amortization_amount, pyPow, pyDiv,
    okBind, errBind, okMap, errMap, pureOk]

/-- C5: the engine performs no validation of `term_periods`.  With
`term_periods = -1` (principal 1000, rate 0.05, MONTHLY) the schedule
generator silently yields a single closing row numbered `-1` instead of
failing with an InvalidArgument error, and with `term_periods = 0` the
payment formula raises `ZeroDivisionError` (not an InvalidArgument error). -/
theorem nonpositive_term_unvalidated :
    amortization_schedule 1000 (5/100) (-1) .MONTHLY =
      .ok [⟨-1, 1004.17, 4.17, 1000, 0⟩] ∧
    calculate_amortization_amount 1000 (5/100) 0 .MONTHLY =
      .error .zeroDivisionError := by
  constructor <;>
    norm_num [amortization_schedule, calculate_amortization_amount, pyPow, pyDiv,
      round2, rhe, scheduleLoop, PaymentFrequency.value,
      okBind, errBind, okMap, errMap, pureOk]

/-! ### Properties of round-half-to-even -/

theorem floor_le_rhe (q : ℚ) : ⌊q⌋ ≤ rhe q := by
  unfold rhe; split_ifs <;> omega

theorem rhe_le_floor_add_one (q : ℚ) : rhe q ≤ ⌊q⌋ + 1 := by
  unfold rhe; split_ifs <;> omega

theorem rhe_mono {a b : ℚ} (h : a ≤ b) : rhe a ≤ rhe b := by
  have hf : ⌊a⌋ ≤ ⌊b⌋ := Int.floor_mono h
  rcases eq_or_lt_of_le hf with heq | hlt
  · unfold rhe
    rw [← heq]
    split_ifs <;> first | omega | linarith
  · have h1 := rhe_le_floor_add_one a
    have h2 := floor_le_rhe b
    omega

theorem round2_mono {a b : ℚ} (h : a ≤ b) : round2 a ≤ round2 b := by
  have hr : rhe (a * 100) ≤ rhe (b * 100) := rhe_mono (by linarith)
  have hc : ((rhe (a * 100) : ℚ)) ≤ (rhe (b * 100) : ℚ) := by exact_mod_cast hr
  unfold round2
  linarith

theorem round2_zero : round2 0 = 0 := by
  norm_num [round2, rhe]

/-! ### The calculator succeeds on positive rate and positive term -/

theorem freq_value_pos (f : PaymentFrequency) : (0 : ℚ) < f.value := by
  cases f <;> norm_num [PaymentFrequency.value]

theorem adjusted_rate_pos {interest_rate : ℚ} (f : PaymentFrequency)
    (hr : 0 < interest_rate) : 0 < interest_rate / f.value :=
  div_pos hr (freq_value_pos f)

theorem growth_gt_one {interest_rate : ℚ} {period : ℤ} (f : PaymentFrequency)
    (hr : 0 < interest_rate) (hT : 0 < period) :
    1 < (1 + interest_rate / f.value) ^ period :=
  one_lt_zpow₀ (by linarith [adjusted_rate_pos f hr]) hT

theorem calculate_ok (principal interest_rate : ℚ) (period : ℤ)
    (f : PaymentFrequency) (hr : 0 < interest_rate) (hT : 0 < period) :
    calculate_amortization_amount principal interest_rate period f =
      .ok (fixedPayment principal interest_rate period f) := by
  have hx := growth_gt_one f hr hT
  have hb : ¬((1 : ℚ) + interest_rate / f.value = 0 ∧ period < 0) := by
    rintro ⟨h0, -⟩
    have := adjusted_rate_pos f hr
    linarith
  have hden : ¬((1 + interest_rate / f.value) ^ period - 1 = 0) := by
    intro h0
    linarith
  simp only [calculate_amortization_amount, pyPow, pyDiv, fixedPayment, paymentExact,
    if_neg hb, if_neg hden, okBind, pureOk]

/-! ### Structure of the generated schedule -/

theorem scheduleLoop_periods (a adj : ℚ) :
    ∀ (k : ℕ) (bal : ℚ) (num : ℤ),
      ((scheduleLoop a adj bal num k).1).map (·.period) = periodList num k
  | 0, bal, num => rfl
  | k + 1, bal, num => by
    simp only [scheduleLoop, List.map_cons, periodList,
      scheduleLoop_periods a adj k _ (num + 1)]

theorem periodList_concat (k : ℕ) : ∀ n : ℤ,
    periodList n k ++ [n + k] = periodList n (k + 1) := by
  induction k with
  | zero => intro n; simp [periodList]
  | succ k ih =>
    intro n
    rw [periodList, periodList, List.cons_append]
    push_cast
    rw [show n + ((k : ℤ) + 1) = (n + 1) + k by ring, ih (n + 1)]

theorem scheduleLoop_length (a adj : ℚ) :
    ∀ (k : ℕ) (bal : ℚ) (num : ℤ), ((scheduleLoop a adj bal num k).1).length = k
  | 0, bal, num => rfl
  | k + 1, bal, num => by
    simp only [scheduleLoop, List.length_cons, scheduleLoop_length a adj k _ (num + 1)]

theorem scheduleLoop_snd (a adj : ℚ) :
    ∀ (k : ℕ) (bal : ℚ) (num : ℤ),
      (scheduleLoop a adj bal num k).2 = balanceAfter a adj bal k
  | 0, bal, num => rfl
  | k + 1, bal, num => by
    simp only [scheduleLoop, balanceAfter]
    exact scheduleLoop_snd a adj k _ (num + 1)

theorem scheduleLoop_payment_split (a adj : ℚ) :
    ∀ (k : ℕ) (bal : ℚ) (num : ℤ),
      ∀ row ∈ (scheduleLoop a adj bal num k).1,
        row.payment_amount = row.interest_component + row.principal_component
  | 0, bal, num => by simp [scheduleLoop]
  | k + 1, bal, num => by
    intro row hrow
    simp only [scheduleLoop] at hrow
    rcases List.mem_cons.mp hrow with h | h
    · subst h
      dsimp only
      ring
    · exact scheduleLoop_payment_split a adj k _ (num + 1) row h

theorem schedule_ok (principal interest_rate : ℚ) (period : ℤ)
    (f : PaymentFrequency) (hr : 0 < interest_rate) (hT : 0 < period) :
    amortization_schedule principal interest_rate period f =
      .ok ((scheduleLoop (fixedPayment principal interest_rate period f)
            (interest_rate / f.value) principal 1 (period - 1).toNat).1 ++
        [⟨period,
          (scheduleLoop (fixedPayment principal interest_rate period f)
            (interest_rate / f.value) principal 1 (period - 1).toNat).2 +
            round2 ((scheduleLoop (fixedPayment principal interest_rate period f)
              (interest_rate / f.value) principal 1 (period - 1).toNat).2 *
              (interest_rate / f.value)),
          round2 ((scheduleLoop (fixedPayment principal interest_rate period f)
            (interest_rate / f.value) principal 1 (period - 1).toNat).2 *
            (interest_rate / f.value)),
          (scheduleLoop (fixedPayment principal interest_rate period f)
            (interest_rate / f.value) principal 1 (period - 1).toNat).2,
          0⟩]) := by
  simp only [amortization_schedule,
    calculate_ok principal interest_rate period f hr hT, okBind, pureOk]

theorem schedule_ok_inv (P r : ℚ) (T : ℤ) (f : PaymentFrequency)
    (rows : List ScheduleRow)
    (h : amortization_schedule P r T f = .ok rows) :
    ∃ a : ℚ,
      calculate_amortization_amount P r T f = .ok a ∧
      rows = (scheduleLoop a (r / f.value) P 1 (T - 1).toNat).1 ++
        [⟨T, (scheduleLoop a (r / f.value) P 1 (T - 1).toNat).2 +
            round2 ((scheduleLoop a (r / f.value) P 1 (T - 1).toNat).2 * (r / f.value)),
          round2 ((scheduleLoop a (r / f.value) P 1 (T - 1).toNat).2 * (r / f.value)),
          (scheduleLoop a (r / f.value) P 1 (T - 1).toNat).2, 0⟩] := by
  unfold amortization_schedule at h
  cases hc : calculate_amortization_amount P r T f with
  | error e =>
    rw [hc] at h
    simp only [errBind] at h
    exact Except.noConfusion h
  | ok a =>
    rw [hc] at h
    simp only [okBind, pureOk, Except.ok.injEq] at h
    exact ⟨a, rfl, h.symm⟩

theorem schedule_rows_length (P r : ℚ) (T : ℤ) (f : PaymentFrequency)
    (rows : List ScheduleRow)
    (h : amortization_schedule P r T f = .ok rows) :
    rows.length = (T - 1).toNat + 1 := by
  obtain ⟨a, -, hrows⟩ := schedule_ok_inv P r T f rows h
  subst hrows
  simp [scheduleLoop_length]

/-! ### Bounding payments from below: the fixed payment covers the interest -/

theorem le_paymentExact (principal interest_rate : ℚ) (period : ℤ)
    (f : PaymentFrequency) (hP : 0 ≤ principal) (hr : 0 < interest_rate)
    (hT : 0 < period) :
    principal * (interest_rate / f.value) ≤
      paymentExact principal interest_rate period f := by
  have hadj := adjusted_rate_pos f hr
  have hx := growth_gt_one f hr hT
  unfold paymentExact
  rw [le_div_iff₀ (by linarith)]
  have hPadj : 0 ≤ principal * (interest_rate / f.value) := mul_nonneg hP hadj.le
  nlinarith [hPadj]

theorem scheduleLoop_balances_chain (a adj cap : ℚ) (hadj : 0 ≤ adj)
    (hpay : round2 (cap * adj) ≤ a) :
    ∀ (k : ℕ) (bal : ℚ) (num : ℤ), bal ≤ cap →
      List.Chain (fun x y => y ≤ x) bal
        (((scheduleLoop a adj bal num k).1).map (·.remaining_balance))
  | 0, bal, num, hble => by
    simp [scheduleLoop]
  | k + 1, bal, num, hble => by
    have hint : round2 (bal * adj) ≤ a :=
      le_trans (round2_mono (mul_le_mul_of_nonneg_right hble hadj)) hpay
    have hstep : bal - (a - round2 (bal * adj)) ≤ bal := by linarith
    simp only [scheduleLoop, List.map_cons]
    exact List.Chain.cons hstep
      (scheduleLoop_balances_chain a adj cap hadj hpay k _ (num + 1)
        (le_trans hstep hble))

/-! ### C2, C3, C6, C7 : schedule shape and balance behaviour -/

/-- C2: for positive principal, positive rate and positive term, the final
row of the schedule has `remaining_balance` exactly 0, its
`principal_component` is the balance left after the first `term_periods - 1`
loop iterations, and its `payment_amount` is that balance plus the final
period's rounded interest. -/
theorem final_row_clears_balance (P r : ℚ) (T : ℤ) (f : PaymentFrequency)
    (hP : 0 < P) (hr : 0 < r) (hT : 0 < T) :
    exOk (amortization_schedule P r T f) = true ∧
    (rowsOf P r T f).getLast? =
      some ⟨T,
        balanceAfter (fixedPayment P r T f) (r / f.value) P (T - 1).toNat +
          round2 (balanceAfter (fixedPayment P r T f) (r / f.value) P
            (T - 1).toNat * (r / f.value)),
        round2 (balanceAfter (fixedPayment P r T f) (r / f.value) P
          (T - 1).toNat * (r / f.value)),
        balanceAfter (fixedPayment P r T f) (r / f.value) P (T - 1).toNat,
        0⟩ := by
  have hs := schedule_ok P r T f hr hT
  constructor
  · simp only [hs, exOk]
  · simp only [rowsOf, hs, scheduleLoop_snd]
    exact List.getLast?_concat _

/-- C2 witness: the theorem instantiated at principal 1000, annual rate
0.05, 2 periods, MONTHLY. -/
theorem final_row_clears_balance_inst :
    exOk (amortization_schedule 1000 (5/100) 2 .MONTHLY) = true ∧
    (rowsOf 1000 (5/100) 2 .MONTHLY).getLast? =
      some ⟨2,
        balanceAfter (fixedPayment 1000 (5/100) 2 .MONTHLY) ((5/100) / PaymentFrequency.value .MONTHLY)
          1000 ((2:ℤ) - 1).toNat +
          round2 (balanceAfter (fixedPayment 1000 (5/100) 2 .MONTHLY)
            ((5/100) / PaymentFrequency.value .MONTHLY) 1000 ((2:ℤ) - 1).toNat *
            ((5/100) / PaymentFrequency.value .MONTHLY)),
        round2 (balanceAfter (fixedPayment 1000 (5/100) 2 .MONTHLY)
          ((5/100) / PaymentFrequency.value .MONTHLY) 1000 ((2:ℤ) - 1).toNat *
          ((5/100) / PaymentFrequency.value .MONTHLY)),
        balanceAfter (fixedPayment 1000 (5/100) 2 .MONTHLY)
          ((5/100) / PaymentFrequency.value .MONTHLY) 1000 ((2:ℤ) - 1).toNat,
        0⟩ :=
  final_row_clears_balance 1000 (5/100) 2 .MONTHLY (by norm_num) (by norm_num)
    (by norm_num)

/-- C3: for positive rate and positive term `T`, the schedule is produced
without error, has exactly `T` rows, and its period numbers are
`1, 2, ..., T` in order with no gaps or repeats. -/
theorem schedule_periods_complete (P r : ℚ) (T : ℤ) (f : PaymentFrequency)
    (hr : 0 < r) (hT : 0 < T) :
    exOk (amortization_schedule P r T f) = true ∧
    (rowsOf P r T f).length = T.toNat ∧
    (rowsOf P r T f).map (·.period) = periodList 1 T.toNat := by
  have hs := schedule_ok P r T f hr hT
  refine ⟨by simp only [hs, exOk], ?_, ?_⟩
  · simp only [rowsOf, hs, List.length_append, scheduleLoop_length,
      List.length_cons, List.length_nil]
    omega
  · simp only [rowsOf, hs, List.map_append, scheduleLoop_periods,
      List.map_cons, List.map_nil]
    rw [show ([T] : List ℤ) = [1 + ((T - 1).toNat : ℤ)] from by
      congr 1
      omega]
    rw [periodList_concat]
    congr 1
    omega

/-- C3 witness: the theorem instantiated at principal 1000, annual rate
0.05, 2 periods, MONTHLY. -/
theorem schedule_periods_complete_inst :
    exOk (amortization_schedule 1000 (5/100) 2 .MONTHLY) = true ∧
    (rowsOf 1000 (5/100) 2 .MONTHLY).length = (2 : ℤ).toNat ∧
    (rowsOf 1000 (5/100) 2 .MONTHLY).map (·.period) = periodList 1 (2 : ℤ).toNat :=
  schedule_periods_complete 1000 (5/100) 2 .MONTHLY (by norm_num) (by norm_num)

/-- C6, amended: for positive principal, positive annual rate and positive
term, `remaining_balance` is non-increasing across consecutive rows within
the loop rows (periods `1..T-1`, i.e. all rows except the final forced-zero
row).  As stated the claim is false: the decrease need not be strict (the
rounded payment can equal the rounded interest, stalling the balance), and
monotonicity need not extend to the final row, whose balance is forced to 0
even when the running balance has overshot below zero. -/
theorem balances_nonincreasing (P r : ℚ) (T : ℤ) (f : PaymentFrequency)
    (hP : 0 < P) (hr : 0 < r) (hT : 0 < T) :
    List.Chain' (fun x y => y.remaining_balance ≤ x.remaining_balance)
      ((rowsOf P r T f).dropLast) := by
  have hs := schedule_ok P r T f hr hT
  have hpay : round2 (P * (r / f.value)) ≤ fixedPayment P r T f :=
    round2_mono (le_paymentExact P r T f hP.le hr hT)
  have hchain :=
    scheduleLoop_balances_chain (fixedPayment P r T f) (r / f.value) P
      (adjusted_rate_pos f hr).le hpay (T - 1).toNat P 1 le_rfl
  have hcons :
      List.Chain' (fun x y => y ≤ x)
        (P :: ((scheduleLoop (fixedPayment P r T f) (r / f.value) P 1
          (T - 1).toNat).1).map (·.remaining_balance)) := hchain
  have hchain' :
      List.Chain' (fun x y => y ≤ x)
        (((scheduleLoop (fixedPayment P r T f) (r / f.value) P 1
          (T - 1).toNat).1).map (·.remaining_balance)) := hcons.tail
  simp only [rowsOf, hs, List.dropLast_concat]
  exact (List.chain'_map _).mp hchain'

/-- C6 witness: the amended theorem instantiated at principal 1000, annual
rate 0.05, 2 periods, MONTHLY. -/
theorem balances_nonincreasing_inst :
    List.Chain' (fun x y => y.remaining_balance ≤ x.remaining_balance)
      ((rowsOf 1000 (5/100) 2 .MONTHLY).dropLast) :=
  balances_nonincreasing 1000 (5/100) 2 .MONTHLY (by norm_num) (by norm_num)
    (by norm_num)

/-- C6, counterexample: the claim as stated fails.  At principal 0.06,
annual rate 0.01, 12 periods, MONTHLY, the rounded payment of 0.01 overdraws
the balance, which runs negative and is then forced back up to 0 by the
final row, so the balances are not non-increasing across consecutive rows;
and at principal 0.01, annual rate 0.01, 3 periods, MONTHLY, the rounded
payment is 0.00, so the positive balance stalls at 0.01 instead of strictly
decreasing until it reaches zero. -/
theorem balance_monotonicity_refuted :
    ¬ List.Chain' (fun x y => y.remaining_balance ≤ x.remaining_balance)
        (rowsOf (0.06 : ℚ) (0.01 : ℚ) 12 .MONTHLY) ∧
    (rowsOf (0.01 : ℚ) (0.01 : ℚ) 3 .MONTHLY).map (·.remaining_balance) =
      [0.01, 0.01, 0] := by
  constructor
  · norm_num [rowsOf, amortization_schedule, calculate_amortization_amount,
      pyPow, pyDiv, round2, rhe, scheduleLoop, PaymentFrequency.value,
      okBind, errBind, okMap, errMap, pureOk, List.chain'_cons]
  · norm_num [rowsOf, amortization_schedule, calculate_amortization_amount,
      pyPow, pyDiv, round2, rhe, scheduleLoop, PaymentFrequency.value,
      okBind, errBind, okMap, errMap, pureOk]

/-- C7: with `term_periods = 1`, any positive principal and positive rate,
the schedule is the single closing row: interest is
`round(principal * per_period_rate, 2)`, `principal_component` is the full
original principal, and `remaining_balance` is 0. -/
theorem single_period_schedule (P r : ℚ) (f : PaymentFrequency)
    (hP : 0 < P) (hr : 0 < r) :
    amortization_schedule P r 1 f =
      .ok [⟨1, P + round2 (P * (r / f.value)), round2 (P * (r / f.value)),
        P, 0⟩] := by
  have hs := schedule_ok P r 1 f hr (by norm_num)
  simpa [scheduleLoop, show ((1 : ℤ) - 1).toNat = 0 from rfl] using hs

/-- C7 witness: the theorem instantiated at principal 1000, annual rate
0.05, MONTHLY, with the row values evaluated. -/
theorem single_period_schedule_inst :
    amortization_schedule 1000 (5/100) 1 .MONTHLY =
      .ok [⟨1, (1004.17 : ℚ), (4.17 : ℚ), 1000, 0⟩] := by
  rw [single_period_schedule 1000 (5/100) .MONTHLY (by norm_num) (by norm_num)]
  norm_num [round2, rhe, PaymentFrequency.value]

/-! ### C8, C9 : the period-bounded summary -/

/-- C8: requesting a loan summary for a month beyond the term returns
exactly the same summary as requesting it at the term itself — Python's
list slice caps at the schedule length, so no index error occurs. -/
theorem summary_capped_at_term (A R : ℚ) (T : ℤ) (f : PaymentFrequency)
    (m : ℕ) (hT : 0 < T) (hm : T < (m : ℤ)) :
    get_loan_summary A R T f m = get_loan_summary A R T f T.toNat := by
  unfold get_loan_summary
  cases hs : amortization_schedule A (R / 100) T f with
  | error e => simp only [hs, errBind]
  | ok rows =>
    have hlen : rows.length = (T - 1).toNat + 1 :=
      schedule_rows_length _ _ _ _ _ hs
    have h1 : rows.take m = rows := List.take_of_length_le (by omega)
    have h2 : rows.take T.toNat = rows := List.take_of_length_le (by omega)
    simp only [hs, okBind, h1, h2]

/-- C8 witness: summary for month 3 of a 2-period loan (amount 1000, stored
rate 5%, MONTHLY) equals the summary for month 2. -/
theorem summary_capped_at_term_inst :
    get_loan_summary 1000 5 2 .MONTHLY 3 = get_loan_summary 1000 5 2 .MONTHLY 2 :=
  summary_capped_at_term 1000 5 2 .MONTHLY 3 (by norm_num) (by norm_num)

/-- C9, amended: a summary requested at month 0 folds over no rows, so all
three returned fields are 0 — including `current_principal_balance`, which
keeps its initialization value 0 rather than the original principal. -/
theorem summary_month_zero (A R : ℚ) (T : ℤ) (f : PaymentFrequency)
    (h : exOk (amortization_schedule A (R / 100) T f) = true) :
    get_loan_summary A R T f 0 = .ok ⟨0, 0, 0⟩ := by
  unfold get_loan_summary
  cases hs : amortization_schedule A (R / 100) T f with
  | error e =>
    rw [hs] at h
    simp [exOk] at h
  | ok rows =>
    simp only [hs, okBind, List.take_zero, summaryFold, List.foldl_nil,
      pureOk, round2_zero]

/-- C9 witness: the amended theorem instantiated at a loan of amount 0,
stored rate 5%, 2 periods, MONTHLY. -/
theorem summary_month_zero_inst :
    get_loan_summary 0 5 2 .MONTHLY 0 = .ok ⟨0, 0, 0⟩ :=
  summary_month_zero 0 5 2 .MONTHLY (by
    norm_num [exOk, amortization_schedule, calculate_amortization_amount,
      pyPow, pyDiv, round2, rhe, scheduleLoop, PaymentFrequency.value,
      okBind, errBind, okMap, errMap, pureOk])

/-- C9, counterexample: for a loan of amount 1000 (stored rate 5%, 2
periods, MONTHLY), the summary at month 0 reports
`current_principal_balance = 0`, not the original principal 1000 the claim
asserts. -/
theorem summary_month_zero_balance_refuted :
    get_loan_summary 1000 5 2 .MONTHLY 0 = .ok ⟨0, 0, 0⟩ ∧ (0 : ℚ) ≠ 1000 := by
  constructor
  · norm_num [get_loan_summary, amortization_schedule,
      calculate_amortization_amount, pyPow, pyDiv, round2, rhe, scheduleLoop,
      summaryFold, PaymentFrequency.value, okBind, errBind, okMap, errMap,
      pureOk]
  · norm_num

/-! ### C10 : every row's payment splits into interest plus principal -/

/-- C10: in every schedule the generator yields, every row — the final
closing row included — satisfies
`payment_amount = interest_component + principal_component` exactly. -/
theorem payment_splits_into_components (P r : ℚ) (T : ℤ)
    (f : PaymentFrequency) (rows : List ScheduleRow)
    (h : amortization_schedule P r T f = .ok rows) :
    ∀ row ∈ rows,
      row.payment_amount = row.interest_component + row.principal_component := by
  obtain ⟨a, -, hrows⟩ := schedule_ok_inv P r T f rows h
  subst hrows
  intro row hrow
  rcases List.mem_append.mp hrow with h1 | h1
  · exact scheduleLoop_payment_split _ _ _ _ _ row h1
  · rcases List.mem_singleton.mp h1 with rfl
    dsimp only
    ring

/-- C10 witness: the theorem applied to the first row of the schedule for
principal 0, annual rate 0.05, 2 periods, MONTHLY. -/
theorem payment_splits_into_components_inst :
    (⟨1, 0, 0, 0, 0⟩ : ScheduleRow).payment_amount =
      (⟨1, 0, 0, 0, 0⟩ : ScheduleRow).interest_component +
        (⟨1, 0, 0, 0, 0⟩ : ScheduleRow).principal_component := by
  refine payment_splits_into_components 0 (5/100) 2 .MONTHLY
    [⟨1, 0, 0, 0, 0⟩, ⟨2, 0, 0, 0, 0⟩] ?_ _ ?_
  · norm_num [amortization_schedule, calculate_amortization_amount, pyPow,
      pyDiv, round2, rhe, scheduleLoop, PaymentFrequency.value, okBind,
      errBind, okMap, errMap, pureOk]
  · simp
